import Mathlib

/-!
Verification of the request-handling service in `src/apps/ai/main.py`.

The service exposes `GET /health`, `GET /prod/health`, `POST /generate` and
`POST /prod/generate`.  The generate handler builds a Bedrock request body
from the prompt, invokes the provider, parses the JSON response, concatenates
the text of the content blocks tagged with type "text", and maps every
failure to an HTTP 500 with a detail string.

The embedding below is shallow: JSON values are an inductive type with
rational numbers, the provider is a function from the request body to a
result (a client error, an unparseable body, or a parsed JSON value), and
the handler is a pure function returning the HTTP outcome together with the
list of diagnostic lines printed.  Python runtime behaviour that the handler
code can trigger (the `in` operator, subscripting, iteration, `.get` on a
non-dict, `+=` on a non-str) is modelled per the runtime type of the value,
with raised exceptions as an explicit error type.
-/

/-- JSON values; numbers are modelled as rationals. -/
inductive Json where
  | null
  | bool (b : Bool)
  | num (q : Rat)
  | str (s : String)
  | arr (xs : List Json)
  | obj (fields : List (String × Json))

/-- Field lookup on a JSON object; `none` on other values or a missing key. -/
def Json.getField : Json → String → Option Json
  | .obj fields, k => fields.lookup k
  | _, _ => none

/-- Line 12 of main.py: `os.getenv("BEDROCK_REGION", "us-east-1")`.
The environment is a map from variable names to their values when set. -/
def bedrock_region (env : String → Option String) : String :=
  (env "BEDROCK_REGION").getD "us-east-1"

/-- Lines 13-16 of main.py: `os.getenv("BEDROCK_MODEL_ID", ...)`. -/
def bedrock_model_id (env : String → Option String) : String :=
  (env "BEDROCK_MODEL_ID").getD "anthropic.claude-3-5-sonnet-20240620-v1:0"

/-- The region option as the spec words it: read from the environment
variable named MODEL_REGION, default "us-east-1".  Stated only to be
compared with `bedrock_region`, which embeds the source. -/
def spec_model_region (env : String → Option String) : String :=
  (env "MODEL_REGION").getD "us-east-1"

/-- Lines 24-25 of main.py: the inbound request model. -/
structure GenerateRequest where
  prompt : String

/-- Lines 30-31 of main.py: the health handler body. -/
def health : Json := .obj [("status", .str "ok")]

/-- Lines 28-31 of main.py: the GET route table.  Both decorated paths
dispatch to the same `health` function; other paths are unmatched. -/
def getRoute (path : String) : Option (Nat × Json) :=
  if path = "/health" then some (200, health)
  else if path = "/prod/health" then some (200, health)
  else none

/-- Lines 42-54 of main.py: the Bedrock request body built from the prompt
(before serialization). -/
def requestBody (prompt : String) : Json :=
  .obj
    [ ("anthropic_version", .str "bedrock-2023-05-31")
    , ("max_tokens", .num 4096)
    , ("temperature", .num ((7 : Rat) / 10))
    , ("messages", .arr [.obj [("role", .str "user"), ("content", .str prompt)]])
    ]

/-- Exceptions the try block of `generate` can raise.  `httpException`
embeds fastapi.HTTPException; the other constructors carry the message
Python would attach (str(e) of the exception). -/
inductive PyExc where
  | httpException (status : Nat) (detail : String)
  | typeError (msg : String)
  | attributeError (msg : String)
  | keyError (key : String)

/-- Python str(e).  Starlette defines HTTPException.____str____ as
the status code, a colon and a space, then the detail; TypeError and
AttributeError stringify to their message.  KeyError is unreachable in
this embedding (subscripting only happens after a successful membership
test), so its rendering is immaterial; CPython would wrap the key in
quote characters. -/
def PyExc.toStr : PyExc → String
  | .httpException status detail => toString status ++ ": " ++ detail
  | .typeError msg => msg
  | .attributeError msg => msg
  | .keyError key => key

/-- Whether `needle` occurs as a contiguous sublist of the list. -/
def charsContain (needle : List Char) : List Char → Bool
  | [] => needle.isPrefixOf []
  | c :: rest => needle.isPrefixOf (c :: rest) || charsContain needle rest

/-- Python substring test `needle in hay` on strings. -/
def strContainsSub (hay needle : String) : Bool :=
  charsContain needle.data hay.data

/-- Python membership `k in xs` for a list value: true iff some element
is the string `k` (string equality only holds against strings). -/
def jsonStrElem (k : String) : List Json → Bool
  | [] => false
  | .str s :: rest => s == k || jsonStrElem k rest
  | _ :: rest => jsonStrElem k rest

/-- Line 70 of main.py, `"content" in response_body`, per the runtime type
of the parsed body: key membership for a dict, element equality for a
list, substring for a str, TypeError for other types. -/
def pyContains (v : Json) (k : String) : Except PyExc Bool :=
  match v with
  | .obj fields => .ok (fields.lookup k).isSome
  | .arr xs => .ok (jsonStrElem k xs)
  | .str s => .ok (strContainsSub s k)
  | _ => .error (.typeError "argument is not iterable")

/-- Line 71 of main.py, `response_body["content"]`, per the runtime type:
dict lookup for a dict, TypeError for a list or str indexed by a string,
TypeError for non-subscriptable types. -/
def pyIndex (v : Json) (k : String) : Except PyExc Json :=
  match v with
  | .obj fields =>
      match fields.lookup k with
      | some w => .ok w
      | none => .error (.keyError k)
  | .arr _ => .error (.typeError "list indices must be integers or slices, not str")
  | .str _ => .error (.typeError "string indices must be integers")
  | _ => .error (.typeError "object is not subscriptable")

/-- Line 71 of main.py, iterating the content value: a list yields its
elements, a str its characters, a dict its keys, other types raise. -/
def pyIter (v : Json) : Except PyExc (List Json) :=
  match v with
  | .arr xs => .ok xs
  | .str s => .ok (s.data.map fun c => Json.str (String.singleton c))
  | .obj fields => .ok (fields.map fun p => Json.str p.fst)
  | _ => .error (.typeError "object is not iterable")

/-- Lines 72-73 of main.py, one iteration of the extraction loop:
`content_block.get("type") == "text"` (AttributeError when the block is
not a dict), then `text_content += content_block.get("text", "")`
(TypeError when the text value is not a str). -/
def appendBlock (acc : String) (b : Json) : Except PyExc String :=
  match b with
  | .obj fields =>
      match fields.lookup "type" with
      | some (.str t) =>
          if t = "text" then
            match fields.lookup "text" with
            | some (.str s) => .ok (acc ++ s)
            | some _ => .error (.typeError "can only concatenate str to str")
            | none => .ok (acc ++ "")
          else .ok acc
      | _ => .ok acc
  | _ => .error (.attributeError "object has no attribute get")

/-- The extraction loop of lines 71-73 folded over the content blocks. -/
def extractLoop (acc : String) : List Json → Except PyExc String
  | [] => .ok acc
  | b :: bs =>
      match appendBlock acc b with
      | .ok acc2 => extractLoop acc2 bs
      | .error e => .error e

/-- Lines 69-73 of main.py: `text_content` after the extraction, starting
from the empty string and skipping the loop when the membership test is
false. -/
def extractText (response_body : Json) : Except PyExc String :=
  match pyContains response_body "content" with
  | .error e => .error e
  | .ok false => .ok ""
  | .ok true =>
      match pyIndex response_body "content" with
      | .error e => .error e
      | .ok contentVal =>
          match pyIter contentVal with
          | .error e => .error e
          | .ok blocks => extractLoop "" blocks

/-- Lines 64-81 of main.py after a successful JSON parse: extract the
text, raise HTTPException(500, "No text content in Bedrock response")
inside the try block when it is empty (Python falsiness of the empty
string), otherwise return the success body. -/
def tryBody (response_body : Json) : Except PyExc Json :=
  match extractText response_body with
  | .error e => .error e
  | .ok t =>
      if t = "" then .error (.httpException 500 "No text content in Bedrock response")
      else .ok (.obj [("text", .str t)])

/-- The raw provider response body: either not valid JSON (carrying the
json.JSONDecodeError message) or a parsed JSON value. -/
inductive RawBody where
  | invalid (msg : String)
  | json (v : Json)

/-- The outcome of the provider call on line 57: a botocore ClientError
carrying the error code and message, or a response body. -/
inductive ProviderResult where
  | clientError (code msg : String)
  | ok (body : RawBody)

/-- The HTTP outcome of a handler invocation: a 200 with a JSON body, or
an HTTPException with a status code and a detail string. -/
inductive HandlerOutcome where
  | success (body : Json)
  | httpError (status : Nat) (detail : String)

/-- Lines 36-102 of main.py: the generate handler.  The provider is a
function from the request body to its result.  Returns the HTTP outcome
together with the diagnostic lines printed.  The except clauses map a
ClientError to the code-and-message detail, a JSONDecodeError to the
fixed parse-failure detail, and any other exception (the inner
HTTPException included) to a detail prefixed with "Generation failed: "
around str(e). -/
def generate (request : GenerateRequest) (provider : Json → ProviderResult) :
    HandlerOutcome × List String :=
  match provider (requestBody request.prompt) with
  | .clientError code msg =>
      (.httpError 500 ("Bedrock invocation failed: " ++ code ++ " - " ++ msg),
       ["Bedrock ClientError: " ++ code ++ " - " ++ msg])
  | .ok (.invalid msg) =>
      (.httpError 500 "Failed to parse Bedrock response",
       ["JSON decode error: " ++ msg])
  | .ok (.json v) =>
      match tryBody v with
      | .ok j => (.success j, [])
      | .error e =>
          (.httpError 500 ("Generation failed: " ++ PyExc.toStr e),
           ["Unexpected error in generate: " ++ PyExc.toStr e])

/-- The text one content block contributes per the spec: the text field
of a block tagged with type "text", nothing for other blocks, the empty
string for a text block without a text string. -/
def blockText : Json → String
  | .obj fields =>
      match fields.lookup "type" with
      | some (.str t) =>
          if t = "text" then
            match fields.lookup "text" with
            | some (.str s) => s
            | _ => ""
          else ""
      | _ => ""
  | _ => ""

/-- The in-order concatenation of the text of the blocks tagged "text". -/
def textConcat : List Json → String
  | [] => ""
  | b :: bs => blockText b ++ textConcat bs

/-- A content block the extraction loop processes without raising: an
object whose text field, when the block is tagged "text" and the field
is present, is a string. -/
def blockOkB : Json → Bool
  | .obj fields =>
      match fields.lookup "type" with
      | some (.str t) =>
          if t = "text" then
            match fields.lookup "text" with
            | some (.str _) => true
            | some _ => false
            | none => true
          else true
      | _ => true
  | _ => false

/-- All blocks of a content list are processed without raising. -/
def blocksOk (blocks : List Json) : Bool := blocks.all blockOkB

/-- A content block tagged "text" carrying the given text. -/
def textBlock (s : String) : Json := .obj [("type", .str "text"), ("text", .str s)]

/-- A content block of a non-text type. -/
def imageBlock : Json := .obj [("type", .str "image")]

/-- A provider that answers every request with the given parsed content
blocks. -/
def contentProvider (blocks : List Json) : Json → ProviderResult :=
  fun _ => .ok (.json (.obj [("content", .arr blocks)]))

/-- An environment that sets only MODEL_REGION, the variable name the
spec documents. -/
def envModelRegion : String → Option String :=
  fun k => if k = "MODEL_REGION" then some "eu-west-1" else none

/-- A provider that answers every request with a parsed JSON object
carrying no content key. -/
def noContentProvider : Json → ProviderResult :=
  fun _ => .ok (.json (.obj [("id", .str "resp-1")]))

theorem appendBlock_eq_ok (acc : String) (b : Json) (hb : blockOkB b = true) :
    appendBlock acc b = .ok (acc ++ blockText b) := by
  cases b with
  | obj fields =>
      cases htype : fields.lookup "type" with
      | none => simp [appendBlock, blockText, htype]
      | some v =>
          cases v with
          | str t =>
              by_cases ht : t = "text"
              · subst ht
                cases htext : fields.lookup "text" with
                | none => simp [appendBlock, blockText, htype, htext]
                | some w =>
                    cases w with
                    | str s => simp [appendBlock, blockText, htype, htext]
                    | null => simp [blockOkB, htype, htext] at hb
                    | bool x => simp [blockOkB, htype, htext] at hb
                    | num x => simp [blockOkB, htype, htext] at hb
                    | arr x => simp [blockOkB, htype, htext] at hb
                    | obj x => simp [blockOkB, htype, htext] at hb
              · simp [appendBlock, blockText, htype, ht]
          | null => simp [appendBlock, blockText, htype]
          | bool x => simp [appendBlock, blockText, htype]
          | num x => simp [appendBlock, blockText, htype]
          | arr x => simp [appendBlock, blockText, htype]
          | obj x => simp [appendBlock, blockText, htype]
  | null => simp [blockOkB] at hb
  | bool x => simp [blockOkB] at hb
  | num x => simp [blockOkB] at hb
  | str x => simp [blockOkB] at hb
  | arr x => simp [blockOkB] at hb

theorem extractLoop_eq_ok (blocks : List Json) :
    ∀ acc : String, blocksOk blocks = true →
      extractLoop acc blocks = .ok (acc ++ textConcat blocks) := by
  induction blocks with
  | nil => intro acc _; simp [extractLoop, textConcat]
  | cons b bs ih =>
      intro acc h
      rw [blocksOk, List.all_cons, Bool.and_eq_true] at h
      rw [extractLoop, appendBlock_eq_ok acc b h.1]
      show extractLoop (acc ++ blockText b) bs = _
      rw [ih (acc ++ blockText b) h.2, textConcat]
      rw [String.append_assoc]

theorem extractText_obj_none (fields : List (String × Json))
    (hc : fields.lookup "content" = none) :
    extractText (.obj fields) = .ok "" := by
  simp [extractText, pyContains, hc]

theorem extractText_obj_content (fields : List (String × Json)) (blocks : List Json)
    (hc : fields.lookup "content" = some (.arr blocks)) :
    extractText (.obj fields) = extractLoop "" blocks := by
  simp [extractText, pyContains, pyIndex, pyIter, hc]

theorem tryBody_obj_content (fields : List (String × Json)) (blocks : List Json)
    (hc : fields.lookup "content" = some (.arr blocks)) (hb : blocksOk blocks = true) :
    tryBody (.obj fields) =
      if textConcat blocks = "" then
        .error (.httpException 500 "No text content in Bedrock response")
      else .ok (.obj [("text", .str (textConcat blocks))]) := by
  rw [tryBody, extractText_obj_content fields blocks hc, extractLoop_eq_ok blocks "" hb]
  show (if ("" ++ textConcat blocks) = "" then _ else _) = _
  rw [show ("" ++ textConcat blocks) = textConcat blocks from rfl]

theorem generate_provider_json (request : GenerateRequest)
    (provider : Json → ProviderResult) (v : Json)
    (hp : provider (requestBody request.prompt) = .ok (.json v)) :
    generate request provider =
      match tryBody v with
      | .ok j => (.success j, [])
      | .error e =>
          (.httpError 500 ("Generation failed: " ++ PyExc.toStr e),
           ["Unexpected error in generate: " ++ PyExc.toStr e]) := by
  rw [generate, hp]

/-- C3 counterexample: in an environment where only MODEL_REGION is set
(to "eu-west-1"), the program still uses the default region, because
line 12 of main.py reads the variable named BEDROCK_REGION; the region
the spec describes (read from MODEL_REGION) differs on this input. -/
theorem bedrock_region_ignores_MODEL_REGION :
    bedrock_region envModelRegion = "us-east-1" ∧
    spec_model_region envModelRegion = "eu-west-1" ∧
    bedrock_region envModelRegion ≠ spec_model_region envModelRegion :=
  ⟨rfl, rfl, by decide⟩

/-- C3 (amended): the region and model identifier are configured from
the environment variables named BEDROCK_REGION (defaulting to
"us-east-1" when unset) and BEDROCK_MODEL_ID (defaulting to the fixed
Claude 3.5 Sonnet model string when unset); these are the recognized
configuration options. -/
theorem env_config_bedrock_names (env : String → Option String) :
    bedrock_region env = (env "BEDROCK_REGION").getD "us-east-1" ∧
    bedrock_model_id env =
      (env "BEDROCK_MODEL_ID").getD "anthropic.claude-3-5-sonnet-20240620-v1:0" :=
  ⟨rfl, rfl⟩

/-- C5: when the provider call fails with a client error carrying an
error code and an error message, the handler logs one diagnostic line
and returns status 500 with a detail string containing both the code
and the message. -/
theorem generate_client_error (request : GenerateRequest)
    (provider : Json → ProviderResult) (code msg : String)
    (hp : provider (requestBody request.prompt) = .clientError code msg) :
    generate request provider =
      (.httpError 500 ("Bedrock invocation failed: " ++ code ++ " - " ++ msg),
       ["Bedrock ClientError: " ++ code ++ " - " ++ msg]) ∧
    ∃ pre mid post,
      ("Bedrock invocation failed: " ++ code ++ " - " ++ msg) =
        pre ++ code ++ mid ++ msg ++ post := by
  constructor
  · rw [generate, hp]
  · exact ⟨"Bedrock invocation failed: ", " - ", "",
      by rw [String.append_empty]⟩

/-- C5 witness: the ThrottlingException instance of the spec. -/
theorem generate_client_error_witness :
    generate ⟨"hello"⟩ (fun _ => .clientError "ThrottlingException" "Rate exceeded") =
      (.httpError 500
        ("Bedrock invocation failed: " ++ "ThrottlingException" ++ " - " ++ "Rate exceeded"),
       ["Bedrock ClientError: " ++ "ThrottlingException" ++ " - " ++ "Rate exceeded"]) ∧
    ∃ pre mid post,
      ("Bedrock invocation failed: " ++ "ThrottlingException" ++ " - " ++ "Rate exceeded") =
        pre ++ "ThrottlingException" ++ mid ++ "Rate exceeded" ++ post :=
  generate_client_error ⟨"hello"⟩
    (fun _ => .clientError "ThrottlingException" "Rate exceeded")
    "ThrottlingException" "Rate exceeded" rfl

/-- C6: when the provider response body is not valid JSON (a
json.JSONDecodeError with any message), the handler logs one diagnostic
line and fails with status 500 and one fixed detail string, the same
for every such input. -/
theorem generate_parse_error (request : GenerateRequest)
    (provider : Json → ProviderResult) (msg : String)
    (hp : provider (requestBody request.prompt) = .ok (.invalid msg)) :
    generate request provider =
      (.httpError 500 "Failed to parse Bedrock response",
       ["JSON decode error: " ++ msg]) := by
  rw [generate, hp]

/-- C6 witness: a concrete unparseable body. -/
theorem generate_parse_error_witness :
    generate ⟨"hello"⟩ (fun _ => .ok (.invalid "Expecting value")) =
      (.httpError 500 "Failed to parse Bedrock response",
       ["JSON decode error: " ++ "Expecting value"]) :=
  generate_parse_error ⟨"hello"⟩ (fun _ => .ok (.invalid "Expecting value"))
    "Expecting value" rfl

/-- C7: for every prompt the request body sent to the provider contains
exactly four fields: the protocol-version tag, the maximum-output-token
bound fixed at 4096, the sampling temperature fixed at 0.7, and a
messages list consisting of a single user-role message carrying that
prompt. -/
theorem requestBody_fields (prompt : String) :
    (requestBody prompt).getField "anthropic_version" =
      some (.str "bedrock-2023-05-31") ∧
    (requestBody prompt).getField "max_tokens" = some (.num 4096) ∧
    (requestBody prompt).getField "temperature" = some (.num ((7 : Rat) / 10)) ∧
    (requestBody prompt).getField "messages" =
      some (.arr [.obj [("role", .str "user"), ("content", .str prompt)]]) ∧
    requestBody prompt =
      .obj [("anthropic_version", .str "bedrock-2023-05-31"),
            ("max_tokens", .num 4096),
            ("temperature", .num ((7 : Rat) / 10)),
            ("messages", .arr [.obj [("role", .str "user"), ("content", .str prompt)]])] :=
  ⟨rfl, rfl, rfl, rfl, rfl⟩

/-- C8: GET /health and GET /prod/health both dispatch to the same
health handler and return status ok with HTTP 200; the handler takes no
inputs at all, so no provider or other component can affect it and it
never fails. -/
theorem health_routes_ok :
    getRoute "/health" = some (200, .obj [("status", .str "ok")]) ∧
    getRoute "/prod/health" = some (200, .obj [("status", .str "ok")]) :=
  ⟨rfl, rfl⟩

/-- C9: the generate handler is deterministic: two runs with an
identical request and an identical provider behaviour produce identical
outputs (the handler is a pure function of those two inputs and this
layer introduces no randomness of its own). -/
theorem generate_deterministic (r1 r2 : GenerateRequest)
    (p1 p2 : Json → ProviderResult) (hr : r1 = r2) (hp : p1 = p2) :
    generate r1 p1 = generate r2 p2 := by
  rw [hr, hp]

/-- C9 witness: two identical concrete runs. -/
theorem generate_deterministic_witness :
    generate ⟨"hi"⟩ (contentProvider [textBlock "ok"]) =
      generate ⟨"hi"⟩ (contentProvider [textBlock "ok"]) :=
  generate_deterministic ⟨"hi"⟩ ⟨"hi"⟩ (contentProvider [textBlock "ok"])
    (contentProvider [textBlock "ok"]) rfl rfl

/-- C1 counterexample: the claim quantifies over every valid-JSON body
containing a content list, but for the empty content list the
concatenation is the empty string and the handler returns a 500 instead
of returning that text. -/
theorem generate_concats_counterexample :
    (generate ⟨"hi"⟩ (contentProvider [])).fst ≠
      .success (.obj [("text", .str (textConcat []))]) ∧
    (generate ⟨"hi"⟩ (contentProvider [])).fst =
      .httpError 500 "Generation failed: 500: No text content in Bedrock response" :=
  And.intro (fun h => nomatch h) rfl

/-- C1 (amended): for every provider response that is a JSON object
whose content field is a list of blocks the loop processes without
raising, whenever the in-order concatenation of the text of exactly the
blocks tagged "text" is non-empty, the handler returns that
concatenation as the text with status 200, ignoring blocks of any other
type and preserving order. -/
theorem generate_concats_text_blocks (request : GenerateRequest)
    (provider : Json → ProviderResult) (fields : List (String × Json))
    (blocks : List Json)
    (hp : provider (requestBody request.prompt) = .ok (.json (.obj fields)))
    (hc : fields.lookup "content" = some (.arr blocks))
    (hb : blocksOk blocks = true)
    (hne : textConcat blocks ≠ "") :
    generate request provider =
      (.success (.obj [("text", .str (textConcat blocks))]), []) := by
  rw [generate_provider_json request provider _ hp,
      tryBody_obj_content fields blocks hc hb, if_neg hne]

/-- C1 witness: the spec example, content blocks text "A", an image
block, text "B", yields the text "AB". -/
theorem generate_concats_text_blocks_witness :
    generate ⟨"hi"⟩ (contentProvider [textBlock "A", imageBlock, textBlock "B"]) =
      (.success (.obj [("text", .str "AB")]), []) :=
  generate_concats_text_blocks ⟨"hi"⟩
    (contentProvider [textBlock "A", imageBlock, textBlock "B"])
    [("content", .arr [textBlock "A", imageBlock, textBlock "B"])]
    [textBlock "A", imageBlock, textBlock "B"] rfl rfl rfl (by decide)

/-- C2: when the parsed provider response is a JSON object with no
content key, or with a content list of blocks (possibly none) whose
text concatenation is the empty string, the handler fails with status
500 and a detail indicating that no text content was produced; an empty
concatenation is a hard failure, never an empty success. -/
theorem generate_empty_content_fails (request : GenerateRequest)
    (provider : Json → ProviderResult) (fields : List (String × Json))
    (blocks : List Json)
    (hp : provider (requestBody request.prompt) = .ok (.json (.obj fields)))
    (hcase : fields.lookup "content" = none ∨
      (fields.lookup "content" = some (.arr blocks) ∧ blocksOk blocks = true ∧
        textConcat blocks = "")) :
    (generate request provider).fst =
      .httpError 500 "Generation failed: 500: No text content in Bedrock response" ∧
    ∀ j : Json, (generate request provider).fst ≠ .success j := by
  have hout : generate request provider =
      (.httpError 500 "Generation failed: 500: No text content in Bedrock response",
       ["Unexpected error in generate: 500: No text content in Bedrock response"]) := by
    rw [generate_provider_json request provider _ hp]
    rcases hcase with hnone | ⟨hc, hb, hz⟩
    · rw [tryBody, extractText_obj_none fields hnone]
      rfl
    · rw [tryBody_obj_content fields blocks hc hb, if_pos hz]
      rfl
  rw [hout]
  exact ⟨rfl, fun j h => nomatch h⟩

/-- C2 witness: a content list holding only an image block yields the
empty concatenation and fails. -/
theorem generate_empty_content_fails_witness :
    (generate ⟨"hi2"⟩ (contentProvider [imageBlock])).fst =
      .httpError 500 "Generation failed: 500: No text content in Bedrock response" ∧
    ∀ j : Json, (generate ⟨"hi2"⟩ (contentProvider [imageBlock])).fst ≠ .success j :=
  generate_empty_content_fails ⟨"hi2"⟩ (contentProvider [imageBlock])
    [("content", .arr [imageBlock])] [imageBlock] rfl (Or.inr ⟨rfl, rfl, rfl⟩)

/-- C4 counterexample: for the single text block whose text is the
empty string the handler does not return an empty text success; it
fails with the wrapped 500 instead, so the claim is false at V = "". -/
theorem generate_single_text_block_counterexample :
    (generate ⟨"hello"⟩ (contentProvider [textBlock ""])).fst ≠
      .success (.obj [("text", .str "")]) ∧
    (generate ⟨"hello"⟩ (contentProvider [textBlock ""])).fst =
      .httpError 500 "Generation failed: 500: No text content in Bedrock response" :=
  And.intro (fun h => nomatch h) rfl

/-- C4 (amended): for every valid non-empty prompt, if the provider
response contains exactly one text content block whose text is the
non-empty string V, the handler returns the text V with status 200; at
V = "" the handler instead fails with the empty-content 500. -/
theorem generate_single_text_block (prompt V : String)
    (provider : Json → ProviderResult)
    (_hprompt : prompt ≠ "")
    (hp : provider (requestBody prompt) =
      .ok (.json (.obj [("content", .arr [textBlock V])])))
    (hV : V ≠ "") :
    generate ⟨prompt⟩ provider = (.success (.obj [("text", .str V)]), []) := by
  have hconcat : textConcat [textBlock V] = V ++ "" := rfl
  have hne : textConcat [textBlock V] ≠ "" := by
    rw [hconcat, String.append_empty]; exact hV
  have h := generate_concats_text_blocks ⟨prompt⟩ provider
    [("content", .arr [textBlock V])] [textBlock V] hp rfl rfl hne
  rw [h, hconcat, String.append_empty]

/-- C4 witness: prompt "hello" and the single text block "V". -/
theorem generate_single_text_block_witness :
    generate ⟨"hello"⟩ (contentProvider [textBlock "V"]) =
      (.success (.obj [("text", .str "V")]), []) :=
  generate_single_text_block "hello" "V" (contentProvider [textBlock "V"])
    (by decide) rfl (by decide)

/-- C10: when the extraction yields the empty string, the
HTTPException(500, "No text content in Bedrock response") raised inside
the try block is intercepted by the generic except-Exception branch and
re-raised, so the caller sees the detail string
"Generation failed: 500: No text content in Bedrock response" (the
empty-content message as Starlette stringifies the exception, wrapped
by the catch-all prefix), not the bare message. -/
theorem generate_empty_detail_wrapped (request : GenerateRequest)
    (provider : Json → ProviderResult) (v : Json)
    (hp : provider (requestBody request.prompt) = .ok (.json v))
    (he : extractText v = .ok "") :
    generate request provider =
      (.httpError 500 "Generation failed: 500: No text content in Bedrock response",
       ["Unexpected error in generate: 500: No text content in Bedrock response"]) ∧
    (generate request provider).fst ≠
      .httpError 500 "No text content in Bedrock response" := by
  have hout : generate request provider =
      (.httpError 500 "Generation failed: 500: No text content in Bedrock response",
       ["Unexpected error in generate: 500: No text content in Bedrock response"]) := by
    rw [generate_provider_json request provider v hp, tryBody, he]
    rfl
  refine ⟨hout, ?_⟩
  rw [hout]
  intro h
  injection h with h1 h2
  exact absurd h2 (by decide)

/-- C10 witness: a parsed object without a content key. -/
theorem generate_empty_detail_wrapped_witness :
    generate ⟨"hi3"⟩ noContentProvider =
      (.httpError 500 "Generation failed: 500: No text content in Bedrock response",
       ["Unexpected error in generate: 500: No text content in Bedrock response"]) ∧
    (generate ⟨"hi3"⟩ noContentProvider).fst ≠
      .httpError 500 "No text content in Bedrock response" :=
  generate_empty_detail_wrapped ⟨"hi3"⟩ noContentProvider
    (.obj [("id", .str "resp-1")]) rfl rfl
